import Mathlib

/-!
Verification development for the GoTo Connect call-routing listeners
(RemoteCC.js and HTTPNotify.js): area-code extraction from a caller id,
lookup of an area code in the state_area_codes routing table, the two
webhook POST handlers with their event-log inserts and HTTP responses,
and the GET query endpoints over the persisted event log.

JavaScript strings are modeled as Lean String values; the string
primitives the source uses (replace of non-digits, substring, split on
comma, trim) are modeled as structural recursions over the character
list so that every definition evaluates by kernel reduction.  The
SQLite reads are modeled as an Except value (error message or row
list); the fire-and-forget INSERT is modeled by a Bool argument giving
the write outcome, which the handlers, like the source, never inspect.
-/

/-- Model of the JavaScript trim on a character list: drop whitespace
from the front and from the back. -/
def trimChars (cs : List Char) : List Char :=
  ((cs.dropWhile Char.isWhitespace).reverse.dropWhile Char.isWhitespace).reverse

/-- Model of the JavaScript String trim method. -/
def jsTrim (s : String) : String :=
  (trimChars s.data).asString

/-- Helper for splitComma: walk the character list, cutting at every
comma; the accumulator holds the current piece reversed. -/
def splitCommaAux : List Char → List Char → List String
  | [], acc => [acc.reverse.asString]
  | c :: rest, acc =>
    if c = ',' then acc.reverse.asString :: splitCommaAux rest []
    else splitCommaAux rest (c :: acc)

/-- Model of the JavaScript split on a comma: cuts at every comma and
keeps empty pieces, so the result is always nonempty. -/
def splitComma (s : String) : List String :=
  splitCommaAux s.data []

/-- Model of replace of every non-digit with nothing, as in the source
regular expression that keeps only the characters 0 to 9. -/
def stripNonDigits (s : String) : String :=
  (s.data.filter Char.isDigit).asString

/-- Model of the JavaScript substring from index 0 to 3: the first
three characters, or the whole string when it is shorter. -/
def substring03 (s : String) : String :=
  (s.data.take 3).asString

/-- Area-code extraction, RemoteCC.js lines 50 to 55 and HTTPNotify.js
lines 49 to 54: when the raw caller number is truthy (nonempty) and its
raw length is at least 10, strip the non-digits and take the first
three characters; otherwise the empty string.  Note the length test is
on the raw string, before stripping. -/
def extractAreaCode (s : String) : String :=
  if s ≠ "" ∧ 10 ≤ s.length then substring03 (stripNonDigits s) else ""

/-- Reference extractor following the specification text of claim C1:
strip the non-digits first, and test whether the digit-only sequence
has at least 10 digits. -/
def areaCodeRef (s : String) : String :=
  if 10 ≤ (stripNonDigits s).length then substring03 (stripNonDigits s)
  else ""

/-- Reference extractor for the amended claim C1: the length-10 test is
on the raw string; on success the result is the first three characters
of the digit-only sequence, which may be shorter than three characters
when the raw string holds fewer than three digits. -/
def areaCodeRefAmended (s : String) : String :=
  if 10 ≤ s.length then substring03 (stripNonDigits s) else ""

/-- One row of the state_area_codes routing table: State, AreaCodes
(comma-separated text, empty string modeling an absent or NULL field,
which is falsy in the source), Extension. -/
structure RoutingRow where
  State : String
  AreaCodes : String
  Extension : String
deriving DecidableEq

/-- The value the lookup callback receives on a match: the state and
extension copied out of the matching row. -/
structure MatchResult where
  state : String
  extension : String
deriving DecidableEq

/-- The comma-split, trimmed area-code entries of a row, as computed in
RemoteCC.js line 114 and HTTPNotify.js line 109. -/
def rowCodes (row : RoutingRow) : List String :=
  (splitComma row.AreaCodes).map jsTrim

/-- The row scan of getExtensionByAreaCode, RemoteCC.js lines 109 to
124: skip a row whose AreaCodes field is falsy; otherwise return the
state and extension of the first row one of whose entries equals the
input area code; none when the scan falls through. -/
def remoteCCScan (areaCode : String) : List RoutingRow → Option MatchResult
  | [] => none
  | row :: rest =>
    if row.AreaCodes = "" then remoteCCScan areaCode rest
    else if (rowCodes row).contains areaCode then
      some { state := row.State, extension := row.Extension }
    else remoteCCScan areaCode rest

/-- getExtensionByAreaCode, RemoteCC.js lines 102 to 129.  The read of
the lookup table is modeled by the Except argument; on a read error the
callback receives null (lines 105 to 108), modeled as none. -/
def getExtensionByAreaCode (areaCode : String)
    (db : Except String (List RoutingRow)) : Option MatchResult :=
  match db with
  | Except.error _ => none
  | Except.ok rows => remoteCCScan areaCode rows

/-- The row scan of getStateAndExtensionByAreaCode, HTTPNotify.js lines
103 to 120.  The found flag of the source only guards a log line and
does not affect the returned value. -/
def httpNotifyScan (areaCode : String) : List RoutingRow → Option MatchResult
  | [] => none
  | row :: rest =>
    if row.AreaCodes = "" then httpNotifyScan areaCode rest
    else if (rowCodes row).contains areaCode then
      some { state := row.State, extension := row.Extension }
    else httpNotifyScan areaCode rest

/-- getStateAndExtensionByAreaCode, HTTPNotify.js lines 96 to 127. -/
def getStateAndExtensionByAreaCode (areaCode : String)
    (db : Except String (List RoutingRow)) : Option MatchResult :=
  match db with
  | Except.error _ => none
  | Except.ok rows => httpNotifyScan areaCode rows

/-- Row-match predicate written from the words of claim C2: the
AreaCodes field is nonempty, and the comma-split, trimmed entry list
holds an entry exactly equal to the input area code. -/
def rowMatches (areaCode : String) (row : RoutingRow) : Bool :=
  row.AreaCodes != "" && (rowCodes row).contains areaCode

/-- The POST body fields both handlers read; a missing field is modeled
as the empty string (falsy, like undefined, in every test the source
applies to these fields). -/
structure ReqBody where
  PBX_ID : String
  CALL_ID : String
  CALLER_ID_NAME : String
  CALLER_ID_NUMBER : String
  DIALED_NUMBER : String
deriving DecidableEq

/-- The event object built by the RemoteCC handler, lines 58 to 67:
input fields, derived area code, and the nullable matched state and
extension. -/
structure EventObj where
  PBX_ID : String
  CALL_ID : String
  CALLER_ID_NAME : String
  CALLER_ID_NUMBER : String
  DIALED_NUMBER : String
  AREA_CODE : String
  MATCHED_STATE : Option String
  MATCHED_EXTENSION : Option String
deriving DecidableEq

/-- The call record built by the HTTPNotify handler, lines 58 to 67. -/
structure CallRecord where
  PBX_ID : String
  CALL_ID : String
  DIALED_NUMBER : String
  CALLER_ID_NUMBER : String
  CALLER_ID_NAME : String
  CALLER_AREA_CODE : String
  State : Option String
  Extension : Option String
deriving DecidableEq

/-- An HTTP response: status code and plain-text body. -/
structure HttpResponse where
  status : Nat
  body : String
deriving DecidableEq

/-- Observable outcome of one POST to the /remotecc endpoint: the list
of rows inserted into the events table, the list of events emitted on
the socket, and the HTTP response. -/
structure RemoteCCOutcome where
  inserts : List EventObj
  emits : List EventObj
  response : HttpResponse
deriving DecidableEq

/-- Observable outcome of one POST to the /notify endpoint. -/
structure NotifyOutcome where
  inserts : List CallRecord
  emits : List CallRecord
  response : HttpResponse
deriving DecidableEq

/-- The /remotecc POST handler, RemoteCC.js lines 46 to 86: extract the
area code, resolve it, insert one event row, emit it, and respond with
the extension as plain text when the result and its extension are
truthy, otherwise with an empty body; status is always 200.  The
final Bool argument models whether the fire-and-forget INSERT of line 73
succeeds; the source attaches no callback to it, so nothing after it
can depend on that outcome. -/
def handleRemoteCC (body : ReqBody) (lookupDb : Except String (List RoutingRow))
    (_insertOk : Bool) : RemoteCCOutcome :=
  let areaCode := extractAreaCode body.CALLER_ID_NUMBER
  let result := getExtensionByAreaCode areaCode lookupDb
  let eventObj : EventObj :=
    { PBX_ID := body.PBX_ID
      CALL_ID := body.CALL_ID
      CALLER_ID_NAME := body.CALLER_ID_NAME
      CALLER_ID_NUMBER := body.CALLER_ID_NUMBER
      DIALED_NUMBER := body.DIALED_NUMBER
      AREA_CODE := areaCode
      MATCHED_STATE := match result with
        | some r => some r.state
        | none => none
      MATCHED_EXTENSION := match result with
        | some r => some r.extension
        | none => none }
  { inserts := [eventObj]
    emits := [eventObj]
    response := match result with
      | some r =>
        if r.extension ≠ "" then { status := 200, body := r.extension }
        else { status := 200, body := "" }
      | none => { status := 200, body := "" } }

/-- The /notify POST handler, HTTPNotify.js lines 46 to 80: same
extract, resolve, insert and emit steps, but the response is always the
fixed acknowledgement with status 200. -/
def handleNotify (body : ReqBody) (lookupDb : Except String (List RoutingRow))
    (_insertOk : Bool) : NotifyOutcome :=
  let areaCode := extractAreaCode body.CALLER_ID_NUMBER
  let result := getStateAndExtensionByAreaCode areaCode lookupDb
  let debugBody : CallRecord :=
    { PBX_ID := body.PBX_ID
      CALL_ID := body.CALL_ID
      DIALED_NUMBER := body.DIALED_NUMBER
      CALLER_ID_NUMBER := body.CALLER_ID_NUMBER
      CALLER_ID_NAME := body.CALLER_ID_NAME
      CALLER_AREA_CODE := areaCode
      State := match result with
        | some r => some r.state
        | none => none
      Extension := match result with
        | some r => some r.extension
        | none => none }
  { inserts := [debugBody]
    emits := [debugBody]
    response := { status := 200, body := "Received" } }

/-- Paired-nullability check for a persisted RemoteCC event: the
matched state and matched extension are both present or both null. -/
def eventMatchPaired (e : EventObj) : Bool :=
  e.MATCHED_STATE.isSome == e.MATCHED_EXTENSION.isSome

/-- Paired-nullability check for a persisted HTTPNotify call record. -/
def callMatchPaired (c : CallRecord) : Bool :=
  c.State.isSome == c.Extension.isSome

/-- A stored row of the events table of RemoteCC.js: auto-increment id,
server-assigned timestamp, and the event payload. -/
structure StoredEvent where
  id : Nat
  timestamp : Nat
  event : EventObj
deriving DecidableEq

/-- A stored row of the calls table of HTTPNotify.js. -/
structure StoredCall where
  id : Nat
  timestamp : Nat
  call : CallRecord
deriving DecidableEq

/-- The ordering used by ORDER BY timestamp DESC, parameterized by the
timestamp projection: a row comes before another when its timestamp is
at least as large. -/
def tsDescBy {α : Type} (ts : α → Nat) (a b : α) : Prop :=
  ts b ≤ ts a

instance {α : Type} (ts : α → Nat) : DecidableRel (tsDescBy ts) :=
  fun a b => Nat.decLe (ts b) (ts a)

instance {α : Type} (ts : α → Nat) : IsTotal α (tsDescBy ts) :=
  ⟨fun a b => Nat.le_total (ts b) (ts a)⟩

instance {α : Type} (ts : α → Nat) : IsTrans α (tsDescBy ts) :=
  ⟨fun _ _ _ h1 h2 => Nat.le_trans h2 h1⟩

/-- The SELECT with ORDER BY timestamp DESC of RemoteCC.js line 90,
modeled as a stable sort of the stored rows by descending timestamp. -/
def selectEventsNewestFirst (rows : List StoredEvent) : List StoredEvent :=
  List.insertionSort (tsDescBy StoredEvent.timestamp) rows

/-- The SELECT with ORDER BY timestamp DESC of HTTPNotify.js line 84. -/
def selectCallsNewestFirst (rows : List StoredCall) : List StoredCall :=
  List.insertionSort (tsDescBy StoredCall.timestamp) rows

/-- Body of a query-endpoint response: either the JSON list of rows or
the JSON error object. -/
inductive EventsQueryBody where
  | rows (rs : List StoredEvent)
  | errorJson (msg : String)
deriving DecidableEq

/-- Body of a /calls query response. -/
inductive CallsQueryBody where
  | rows (rs : List StoredCall)
  | errorJson (msg : String)
deriving DecidableEq

/-- Response of the GET /events endpoint. -/
structure EventsQueryResponse where
  status : Nat
  body : EventsQueryBody
deriving DecidableEq

/-- Response of the GET /calls endpoint. -/
structure CallsQueryResponse where
  status : Nat
  body : CallsQueryBody
deriving DecidableEq

/-- The GET /events handler, RemoteCC.js lines 89 to 94: on a read
error, status 500 with a JSON error body; otherwise status 200 with the
rows ordered by timestamp descending. -/
def handleGetEvents (db : Except String (List StoredEvent)) : EventsQueryResponse :=
  match db with
  | Except.error e => { status := 500, body := EventsQueryBody.errorJson e }
  | Except.ok rows =>
    { status := 200, body := EventsQueryBody.rows (selectEventsNewestFirst rows) }

/-- The GET /calls handler, HTTPNotify.js lines 83 to 88. -/
def handleGetCalls (db : Except String (List StoredCall)) : CallsQueryResponse :=
  match db with
  | Except.error e => { status := 500, body := CallsQueryBody.errorJson e }
  | Except.ok rows =>
    { status := 200, body := CallsQueryBody.rows (selectCallsNewestFirst rows) }

/-- The row list carried by a /events response body; empty for an error
body. -/
def eventsResponseRows : EventsQueryBody → List StoredEvent
  | EventsQueryBody.rows rs => rs
  | EventsQueryBody.errorJson _ => []

/-- The row list carried by a /calls response body; empty for an error
body. -/
def callsResponseRows : CallsQueryBody → List StoredCall
  | CallsQueryBody.rows rs => rs
  | CallsQueryBody.errorJson _ => []

/-- Strict newest-first order on stored events: every event has a
strictly larger timestamp than the next one. -/
def strictlyNewestFirst : List StoredEvent → Bool
  | [] => true
  | [_] => true
  | a :: b :: rest =>
    decide (b.timestamp < a.timestamp) && strictlyNewestFirst (b :: rest)

/-- Helper: the two row-scan loops compute the same function; the only
difference between them in the source is a logging flag. -/
theorem httpNotifyScan_eq_remoteCCScan (areaCode : String) (rows : List RoutingRow) :
    httpNotifyScan areaCode rows = remoteCCScan areaCode rows := by
  induction rows with
  | nil => rfl
  | cons row rest ih => simp only [httpNotifyScan, remoteCCScan, ih]

/-- Helper: the row scan returns exactly the first row satisfying
rowMatches, with its State and Extension copied out, and none when no
row matches. -/
theorem remoteCCScan_eq_find (areaCode : String) (rows : List RoutingRow) :
    remoteCCScan areaCode rows =
      (rows.find? (rowMatches areaCode)).map fun row =>
        { state := row.State, extension := row.Extension } := by
  induction rows with
  | nil => rfl
  | cons row rest ih =>
    by_cases hA : row.AreaCodes = ""
    · have hm : rowMatches areaCode row = false := by simp [rowMatches, hA]
      simp [remoteCCScan, hA, List.find?, hm, ih]
    · by_cases hC : areaCode ∈ rowCodes row
      · have hm : rowMatches areaCode row = true := by simp [rowMatches, hA, hC]
        simp [remoteCCScan, hA, hC, List.find?, hm]
      · have hm : rowMatches areaCode row = false := by simp [rowMatches, hA, hC]
        simp [remoteCCScan, hA, hC, List.find?, hm, ih]

/-- Helper: the response of the /remotecc handler is always status 200
with the matched extension as body on a match and an empty body
otherwise; when the matched extension is itself the empty string the
handler takes the else branch and still sends that same empty string. -/
theorem remotecc_response_char (b : ReqBody) (db : Except String (List RoutingRow))
    (ok : Bool) :
    (handleRemoteCC b db ok).response =
      { status := 200
        body := match getExtensionByAreaCode (extractAreaCode b.CALLER_ID_NUMBER) db with
          | some r => r.extension
          | none => "" } := by
  unfold handleRemoteCC
  cases h : getExtensionByAreaCode (extractAreaCode b.CALLER_ID_NUMBER) db with
  | none => simp [h]
  | some r =>
    by_cases he : r.extension = "" <;> simp [h, he]

/-- C1, counterexample: the claim says the extractor equals the
reference that strips non-digits first and tests whether the digit-only
sequence has at least 10 digits.  At the concrete caller number
(555) 123-4 the raw length is 11 but the digit-only form 5551234 has
only 7 digits: the code extracts 555, the reference of the claim yields
the empty string, so the two differ, and a caller number whose
digit-only form has fewer than 10 digits gets a nonempty area code. -/
theorem extractAreaCode_C1_counterexample :
    extractAreaCode "(555) 123-4" = "555" ∧
    areaCodeRef "(555) 123-4" = "" ∧
    extractAreaCode "(555) 123-4" ≠ areaCodeRef "(555) 123-4" ∧
    (stripNonDigits "(555) 123-4").length < 10 := by decide

/-- C1, amended: for every raw caller-number string, if the raw string
is nonempty and its raw, unstripped length is at least 10, the
extracted area code is the first three characters of the digit-only
sequence (possibly shorter than three when the raw string holds fewer
than three digits); otherwise, including empty or missing input, it is
the empty string.  The at-least-10 length test is on the raw string,
not on the digit-only sequence. -/
theorem extractAreaCode_C1_amended (s : String) :
    extractAreaCode s = areaCodeRefAmended s := by
  by_cases h : s = ""
  · subst h; rfl
  · simp [extractAreaCode, areaCodeRefAmended, h]

/-- C2: for every routing table and every input area code, both lookup
functions return exactly the first row, in table iteration order, whose
comma-split and whitespace-trimmed AreaCodes entries contain an entry
equal to the input area code, with that row's State and Extension
copied out; rows whose AreaCodes field is empty are skipped and never
match; and the result is none, not an error, when no row matches. -/
theorem resolve_first_match_C2 (rows : List RoutingRow) (areaCode : String) :
    getExtensionByAreaCode areaCode (Except.ok rows) =
      ((rows.find? (rowMatches areaCode)).map fun row =>
        { state := row.State, extension := row.Extension }) ∧
    getStateAndExtensionByAreaCode areaCode (Except.ok rows) =
      ((rows.find? (rowMatches areaCode)).map fun row =>
        { state := row.State, extension := row.Extension }) := by
  constructor
  · exact remoteCCScan_eq_find areaCode rows
  · calc getStateAndExtensionByAreaCode areaCode (Except.ok rows)
        = httpNotifyScan areaCode rows := rfl
      _ = remoteCCScan areaCode rows := httpNotifyScan_eq_remoteCCScan areaCode rows
      _ = _ := remoteCCScan_eq_find areaCode rows

/-- C3: for every POST to /remotecc, the response status is 200
regardless of outcome, and the body is exactly the matched rule's
extension string on a match and exactly the empty string on no
match. -/
theorem remotecc_response_C3 (b : ReqBody) (db : Except String (List RoutingRow))
    (ok : Bool) :
    (handleRemoteCC b db ok).response.status = 200 ∧
    (handleRemoteCC b db ok).response.body =
      (match getExtensionByAreaCode (extractAreaCode b.CALLER_ID_NUMBER) db with
       | some r => r.extension
       | none => "") := by
  rw [remotecc_response_char b db ok]
  exact ⟨rfl, rfl⟩

/-- C4: under the precondition that every comma-split trimmed entry of
every row with a nonempty AreaCodes field is a nonempty three-character
digit string, resolving the empty-string area code (produced when the
caller id is too short or missing) matches no rule and both lookup
functions take the no-match path. -/
theorem resolve_empty_C4 (rows : List RoutingRow)
    (h : ∀ row ∈ rows, row.AreaCodes ≠ "" →
      ∀ code ∈ rowCodes row, code ≠ "" ∧ code.length = 3 ∧ code.data.all Char.isDigit) :
    getExtensionByAreaCode "" (Except.ok rows) = none ∧
    getStateAndExtensionByAreaCode "" (Except.ok rows) = none := by
  have hfind : rows.find? (rowMatches "") = none := by
    rw [List.find?_eq_none]
    intro row hrow
    by_cases hA : row.AreaCodes = ""
    · simp [rowMatches, hA]
    · simp only [rowMatches, Bool.and_eq_true, bne_iff_ne, ne_eq, List.contains_iff_exists_mem_beq]
      rintro ⟨-, code, hcode, hbeq⟩
      have : code = "" := by simpa using (beq_iff_eq.mp hbeq).symm
      exact ((h row hrow hA code hcode).1 this)
  constructor
  · show remoteCCScan "" rows = none
    rw [remoteCCScan_eq_find, hfind]; rfl
  · show httpNotifyScan "" rows = none
    rw [httpNotifyScan_eq_remoteCCScan, remoteCCScan_eq_find, hfind]; rfl

/-- C4, witness: a concrete one-row table whose entries 415 and 650 are
nonempty three-digit strings, on which the precondition holds and both
resolvers map the empty area code to none. -/
theorem resolve_empty_C4_witness :
    (∀ row ∈ [RoutingRow.mk "CA" "415, 650" "100"], row.AreaCodes ≠ "" →
      ∀ code ∈ rowCodes row, code ≠ "" ∧ code.length = 3 ∧ code.data.all Char.isDigit) ∧
    getExtensionByAreaCode "" (Except.ok [RoutingRow.mk "CA" "415, 650" "100"]) = none ∧
    getStateAndExtensionByAreaCode "" (Except.ok [RoutingRow.mk "CA" "415, 650" "100"]) = none := by
  refine ⟨by decide, ?_, ?_⟩
  · exact (resolve_empty_C4 _ (by decide)).1
  · exact (resolve_empty_C4 _ (by decide)).2

/-- C5: every webhook call inserts exactly one event record, and in it
the matched-state and matched-extension fields are either both null or
both set; this holds for the /remotecc handler and for the /notify
handler. -/
theorem matched_pair_C5 (b : ReqBody) (db : Except String (List RoutingRow)) (ok : Bool) :
    (∃ e, (handleRemoteCC b db ok).inserts = [e] ∧
      ((e.MATCHED_STATE = none ∧ e.MATCHED_EXTENSION = none) ∨
       ∃ s x, e.MATCHED_STATE = some s ∧ e.MATCHED_EXTENSION = some x)) ∧
    (∃ c, (handleNotify b db ok).inserts = [c] ∧
      ((c.State = none ∧ c.Extension = none) ∨
       ∃ s x, c.State = some s ∧ c.Extension = some x)) := by
  constructor
  · refine ⟨_, rfl, ?_⟩
    cases h : getExtensionByAreaCode (extractAreaCode b.CALLER_ID_NUMBER) db with
    | none => left; constructor <;> simp [handleRemoteCC, h]
    | some r =>
      right
      exact ⟨r.state, r.extension, by simp [handleRemoteCC, h], by simp [handleRemoteCC, h]⟩
  · refine ⟨_, rfl, ?_⟩
    cases h : getStateAndExtensionByAreaCode (extractAreaCode b.CALLER_ID_NUMBER) db with
    | none => left; constructor <;> simp [handleNotify, h]
    | some r =>
      right
      exact ⟨r.state, r.extension, by simp [handleNotify, h], by simp [handleNotify, h]⟩

/-- C6: a failed read of the lookup table makes both resolvers return
the no-match result instead of propagating the fault, and each webhook
still produces its normal response: status 200 with the empty no-match
body on /remotecc, status 200 with the fixed acknowledgement on
/notify. -/
theorem lookup_failure_C6 (msg a : String) (b : ReqBody) (ok : Bool) :
    getExtensionByAreaCode a (Except.error msg) = none ∧
    getStateAndExtensionByAreaCode a (Except.error msg) = none ∧
    (handleRemoteCC b (Except.error msg) ok).response = { status := 200, body := "" } ∧
    (handleNotify b (Except.error msg) ok).response = { status := 200, body := "Received" } :=
  ⟨rfl, rfl, rfl, rfl⟩

/-- C7: the /remotecc response does not depend on the outcome of the
event-log insert: for any two outcomes of the write the handler sends
the same response, which is status 200 carrying the matched extension
string or the empty body. -/
theorem insert_failure_C7 (b : ReqBody) (db : Except String (List RoutingRow))
    (ok ok2 : Bool) :
    (handleRemoteCC b db ok).response = (handleRemoteCC b db ok2).response ∧
    (handleRemoteCC b db ok).response.status = 200 ∧
    (handleRemoteCC b db ok).response.body =
      (match getExtensionByAreaCode (extractAreaCode b.CALLER_ID_NUMBER) db with
       | some r => r.extension
       | none => "") := by
  refine ⟨rfl, ?_, ?_⟩ <;> rw [remotecc_response_char b db ok]

/-- C8: every POST to either webhook endpoint appends exactly one
record to its event store, whatever the request body, the lookup-table
state and the write outcome. -/
theorem one_insert_C8 (b : ReqBody) (db : Except String (List RoutingRow)) (ok : Bool) :
    (handleRemoteCC b db ok).inserts.length = 1 ∧
    (handleNotify b db ok).inserts.length = 1 :=
  ⟨rfl, rfl⟩

/-- C9, counterexample: with two distinct stored events sharing the
timestamp 5 (two webhook calls landing in the same clock second), the
query endpoint answers 200 but its row list cannot be and is not in
strictly newest-first order, refuting the strictness part of the
claim. -/
theorem events_order_C9_counterexample :
    (handleGetEvents (Except.ok
      [ StoredEvent.mk 1 5 (EventObj.mk "" "" "" "" "" "" none none),
        StoredEvent.mk 2 5 (EventObj.mk "" "" "" "" "" "" none none) ])).status = 200 ∧
    StoredEvent.mk 1 5 (EventObj.mk "" "" "" "" "" "" none none) ≠
      StoredEvent.mk 2 5 (EventObj.mk "" "" "" "" "" "" none none) ∧
    strictlyNewestFirst (eventsResponseRows (handleGetEvents (Except.ok
      [ StoredEvent.mk 1 5 (EventObj.mk "" "" "" "" "" "" none none),
        StoredEvent.mk 2 5 (EventObj.mk "" "" "" "" "" "" none none) ])).body) = false := by
  decide

/-- C9, amended: the query endpoints GET /events and GET /calls return
all persisted records ordered newest-first by timestamp, with
non-increasing timestamps and records sharing a timestamp in
unspecified relative order; on a failed read they respond with status
500 and a JSON body carrying the error message. -/
theorem events_order_C9_amended (msg : String) (rows : List StoredEvent)
    (calls : List StoredCall) :
    handleGetEvents (Except.error msg) =
      { status := 500, body := EventsQueryBody.errorJson msg } ∧
    handleGetCalls (Except.error msg) =
      { status := 500, body := CallsQueryBody.errorJson msg } ∧
    (handleGetEvents (Except.ok rows)).status = 200 ∧
    (eventsResponseRows (handleGetEvents (Except.ok rows)).body).Perm rows ∧
    List.Sorted (tsDescBy StoredEvent.timestamp)
      (eventsResponseRows (handleGetEvents (Except.ok rows)).body) ∧
    (handleGetCalls (Except.ok calls)).status = 200 ∧
    (callsResponseRows (handleGetCalls (Except.ok calls)).body).Perm calls ∧
    List.Sorted (tsDescBy StoredCall.timestamp)
      (callsResponseRows (handleGetCalls (Except.ok calls)).body) := by
  refine ⟨rfl, rfl, rfl, ?_, ?_, rfl, ?_, ?_⟩
  · exact List.perm_insertionSort _ rows
  · exact List.sorted_insertionSort _ rows
  · exact List.perm_insertionSort _ calls
  · exact List.sorted_insertionSort _ calls

/-- C10: the two lookup functions are equivalent: for every lookup-db
state (read error or row list) and every area code, the RemoteCC
function and the HTTPNotify function return the same optional state and
extension pair. -/
theorem lookups_equivalent_C10 (areaCode : String) (db : Except String (List RoutingRow)) :
    getExtensionByAreaCode areaCode db = getStateAndExtensionByAreaCode areaCode db := by
  cases db with
  | error e => rfl
  | ok rows => exact (httpNotifyScan_eq_remoteCCScan areaCode rows).symm
